import Mathlib

/-!
Shallow embedding of the signal-scoring and historical-tracking subsystem of
the economic-intelligence repository.

Conventions of the embedding:
* Python `float` values (scores, spreads, probabilities) are modelled as `ℚ`.
* Python `date` values are modelled as `ℤ` (a day count); `timedelta(days=n)`
  becomes integer subtraction/addition of `n`.  `datetime` wall-clock values
  are likewise modelled as `ℤ` and passed in explicitly where the source
  calls `datetime.utcnow()` / `date.today()`.
* Python `round(x, 3)` is modelled by `round3` below; the only divergence is
  on exact ties (banker's rounding vs round-half-up), which no statement in
  this development touches.
* The random `uuid` suffix of `signal_id` and the `computed_at` field of the
  in-memory pydantic models are not modelled: nothing in this development
  reads them.  Numeric interpolation inside human-readable summary strings
  (`f"... {spread:.2f}% ..."`) is elided from the string constants.
* Database tables are modelled as lists of row structures inside a `DB`
  record; `session.add` is list append, and the SQL group-by/window queries
  of `detect_changes` are modelled by passing the query results (one row per
  signal name) as inputs.
-/

/-- `DataSource` enum from `core/models.py`. -/
inductive DataSource where
  | FRED | BLS | TREASURY | FDIC | CENSUS
deriving DecidableEq

/-- `Frequency` enum from `core/models.py`. -/
inductive Frequency where
  | DAILY | WEEKLY | BIWEEKLY | MONTHLY | QUARTERLY | SEMIANNUAL | ANNUAL
deriving DecidableEq

/-- `Category` enum from `core/models.py`. -/
inductive Category where
  | INTEREST_RATES | INFLATION | EMPLOYMENT | HOUSING | GDP | BANKING
  | TREASURY_DEBT | LEADING_INDICATORS
deriving DecidableEq

/-- `SignalTag` enum from `core/models.py`. -/
inductive SignalTag where
  | RECESSION_SIGNAL | YIELD_CURVE_INVERTED | YIELD_CURVE_STEEPENING
  | INFLATION_RISING | INFLATION_COOLING | JOBS_STRONG | JOBS_WEAKENING
  | HOUSING_COOLING | HOUSING_HEATING | BANK_STRESS | OVERHEATING
  | RATE_HIKE_SIGNAL | RATE_CUT_SIGNAL | LEADING_INDICATOR_DECLINE
  | LEADING_INDICATOR_RISE | REGIONAL_DIVERGENCE
deriving DecidableEq

/-- The `.value` string of a `SignalTag` (the str-enum payload). -/
def SignalTag.value : SignalTag → String
  | .RECESSION_SIGNAL => "recession_signal"
  | .YIELD_CURVE_INVERTED => "yield_curve_inverted"
  | .YIELD_CURVE_STEEPENING => "yield_curve_steepening"
  | .INFLATION_RISING => "inflation_rising"
  | .INFLATION_COOLING => "inflation_cooling"
  | .JOBS_STRONG => "jobs_strong"
  | .JOBS_WEAKENING => "jobs_weakening"
  | .HOUSING_COOLING => "housing_cooling"
  | .HOUSING_HEATING => "housing_heating"
  | .BANK_STRESS => "bank_stress"
  | .OVERHEATING => "overheating"
  | .RATE_HIKE_SIGNAL => "rate_hike_signal"
  | .RATE_CUT_SIGNAL => "rate_cut_signal"
  | .LEADING_INDICATOR_DECLINE => "leading_indicator_decline"
  | .LEADING_INDICATOR_RISE => "leading_indicator_rise"
  | .REGIONAL_DIVERGENCE => "regional_divergence"

/-- The `.value` string of a `Category` (the str-enum payload). -/
def Category.value : Category → String
  | .INTEREST_RATES => "interest_rates"
  | .INFLATION => "inflation"
  | .EMPLOYMENT => "employment"
  | .HOUSING => "housing"
  | .GDP => "gdp"
  | .BANKING => "banking"
  | .TREASURY_DEBT => "treasury_debt"
  | .LEADING_INDICATORS => "leading_indicators"

/-- `DataPoint` from `core/models.py`: a single observation. -/
structure DataPoint where
  date : ℤ
  value : ℚ
  preliminary : Bool := false
deriving DecidableEq, Inhabited

/-- `SeriesMetadata` from `core/models.py`. -/
structure SeriesMetadata where
  series_id : String
  title : String
  source : DataSource
  category : Category
  frequency : Frequency
  units : String
  seasonal_adjustment : String := "Not Seasonally Adjusted"
  notes : String := ""
deriving DecidableEq

/-- `EconomicSeries` from `core/models.py`. -/
structure EconomicSeries where
  metadata : SeriesMetadata
  observations : List DataPoint
deriving DecidableEq

/-- `EconomicSeries.latest`: `max(observations, key=o.date)`, `None` on empty.
Python `max` returns the first maximal element, which the fold reproduces
(the accumulator is replaced only on a strictly larger date). -/
def EconomicSeries.latestObs (s : EconomicSeries) : Option DataPoint :=
  match s.observations with
  | [] => none
  | o :: rest => some (rest.foldl (fun best o2 => if best.date < o2.date then o2 else best) o)

/-- `EconomicSeries.pct_change(periods)`: sort observations by date (Python
`sorted` is a stable sort by key, matching `mergeSort`), then for each index
`i ≥ periods` emit `(date_i, (v_i - v_{i-periods}) / |v_{i-periods}| * 100)`,
skipping pairs whose base value is zero.  The zip pairs `sorted[i-periods]`
with `sorted[i]`. -/
def EconomicSeries.pctChange (s : EconomicSeries) (periods : ℕ) : List (ℤ × ℚ) :=
  let sortedObs := s.observations.mergeSort (fun a b => decide (a.date ≤ b.date))
  (sortedObs.zip (sortedObs.drop periods)).filterMap (fun pc =>
    if pc.1.value ≠ 0
    then some (pc.2.date, (pc.2.value - pc.1.value) / |pc.1.value| * 100)
    else none)

/-- `ScoredSignal` from `core/models.py` (random uuid suffix of `signal_id`
and `computed_at` not modelled; no claim reads them). -/
structure ScoredSignal where
  signal_id : String
  title : String
  summary : String
  score : ℚ
  tags : List SignalTag
  category : Category
  sources_used : List DataSource
  contributing_series : List String
  data_as_of : ℤ
deriving DecidableEq

/-- `BankHealthSummary` from `core/models.py`. -/
structure BankHealthSummary where
  total_institutions : ℤ
  problem_institutions : ℤ
  total_assets_billions : ℚ
  problem_assets_billions : ℚ
  avg_tier1_ratio : Option ℚ := none
  recent_failures : ℤ
  assessment : String
  stress_score : ℚ
deriving DecidableEq

/-- `RecessionProbability` from `core/models.py` (`computed_at` and the
unused `leading_index_trend` not modelled). -/
structure RecessionProbability where
  probability : ℚ
  assessment : String
  contributing_signals : List ScoredSignal
  yield_curve_spread : Option ℚ := none
  unemployment_trend : Option String := none
deriving DecidableEq

/-- Python `round(x, 3)`: round to 3 decimal places.  Mathlib `round` is
round-half-up while Python uses round-half-to-even; the two agree away from
exact ties, and no statement below evaluates a tie. -/
def round3 (q : ℚ) : ℚ := (round (q * 1000) : ℤ) / 1000

/-- Base-case (score, tags) of `score_yield_curve` (`scoring.py` lines 44-59),
before the un-inversion override. -/
def yieldBase (spread : ℚ) : ℚ × List SignalTag :=
  if spread < 0 then
    (min 1 (|spread| / 1), [.YIELD_CURVE_INVERTED, .RECESSION_SIGNAL])
  else if spread < 1/2 then
    (2/5, [.RECESSION_SIGNAL])
  else if spread > 2 then
    (1/10, [.YIELD_CURVE_STEEPENING])
  else
    (1/5, [])

/-- Base-case summary sentence of `score_yield_curve` (interpolated numbers elided). -/
def yieldBaseSummary (spread : ℚ) : String :=
  if spread < 0 then
    "Yield curve is inverted. The 10Y-2Y spread has been a reliable recession predictor."
  else if spread < 1/2 then
    "Yield curve is nearly flat. Approaching inversion territory."
  else if spread > 2 then
    "Yield curve is steep, indicating market expectations of future growth and/or inflation."
  else
    "Yield curve spread is in normal range. No strong signal."

/-- `score_yield_curve` from `core/scoring.py`.  `None` when the series is
absent or has no observations; otherwise the base-case score/tags with the
recent-un-inversion override (trailing 180 days) applied on top. -/
def scoreYieldCurve (spread10y2y : Option EconomicSeries) : Option ScoredSignal :=
  match spread10y2y with
  | none => none
  | some s =>
    match s.latestObs with
    | none => none
    | some latest =>
      let spread := latest.value
      let base := yieldBase spread
      let recentObs := s.observations.filter (fun o => decide (latest.date - 180 ≤ o.date))
      let wasInverted := recentObs.any (fun o => decide (o.value < 0))
      let nowPositive := decide (0 < spread)
      let scoreTags :=
        if wasInverted && nowPositive then
          (max base.1 (7/10), base.2 ++ [.RECESSION_SIGNAL])
        else base
      let summary :=
        if wasInverted && nowPositive then
          yieldBaseSummary spread ++ " The curve recently un-inverted - historically this steepening after inversion often immediately precedes recession."
        else yieldBaseSummary spread
      some { signal_id := "yield_curve"
             title := "Yield Curve Signal"
             summary := summary
             score := scoreTags.1
             tags := scoreTags.2
             category := .INTEREST_RATES
             sources_used := [.FRED]
             contributing_series := ["T10Y2Y"]
             data_as_of := latest.date }

/-- Stand-in for Python `date.min` in `score_jobs_inflation_divergence`
(unreachable there: both series are non-empty when it is evaluated). -/
def dateMin : ℤ := -1000000

/-- `score_jobs_inflation_divergence` from `core/scoring.py`: `None` when a
series is absent, empty, or yields fewer than two 3-period percent-change
points; otherwise the decision table on (unemployment trend, CPI trend). -/
def scoreJobsInflationDivergence (unemployment cpi : Option EconomicSeries) :
    Option ScoredSignal :=
  match unemployment, cpi with
  | some u, some c =>
    if u.observations.isEmpty || c.observations.isEmpty then none
    else
      let unempChanges := u.pctChange 3
      let cpiChanges := c.pctChange 3
      if unempChanges.length < 2 || cpiChanges.length < 2 then none
      else
        let unempTrend := (unempChanges.getLastD (0, 0)).2
        let cpiTrend := (cpiChanges.getLastD (0, 0)).2
        let dataDate := max ((u.latestObs.map (·.date)).getD dateMin)
                            ((c.latestObs.map (·.date)).getD dateMin)
        let sts : ℚ × List SignalTag × String :=
          if unempTrend < -1 ∧ cpiTrend > 1 then
            (7/10, [.OVERHEATING, .INFLATION_RISING, .JOBS_STRONG],
             "Unemployment is falling while inflation is rising - classic overheating signal.")
          else if unempTrend > 1 ∧ cpiTrend > 1 then
            (3/5, [.INFLATION_RISING, .JOBS_WEAKENING],
             "Stagflation risk: unemployment is rising alongside inflation.")
          else if unempTrend > 1 ∧ cpiTrend < -1/2 then
            (1/2, [.INFLATION_COOLING, .JOBS_WEAKENING, .RATE_CUT_SIGNAL],
             "Both unemployment rising and inflation cooling - conditions that typically lead to rate cuts.")
          else if unempTrend < -1 ∧ cpiTrend < -1/2 then
            (1/5, [.INFLATION_COOLING, .JOBS_STRONG],
             "Goldilocks scenario: strong job market with cooling inflation.")
          else
            (3/20, [],
             "No strong divergence between jobs and inflation trends.")
        some { signal_id := "jobs_inflation"
               title := "Jobs vs. Inflation Divergence"
               summary := sts.2.2
               score := sts.1
               tags := sts.2.1
               category := .EMPLOYMENT
               sources_used := [.FRED, .BLS]
               contributing_series := ["UNRATE", "CPIAUCSL"]
               data_as_of := dataDate }
  | _, _ => none

/-- `score_bank_stress` from `core/scoring.py`; `today` stands for the
ambient `date.today()` used as `data_as_of`. -/
def scoreBankStress (bankHealth : BankHealthSummary) (today : ℤ) : ScoredSignal :=
  let tags : List SignalTag :=
    (if bankHealth.stress_score > 1/2 then [.BANK_STRESS] else [])
      ++ (if bankHealth.stress_score > 7/10 then [.RECESSION_SIGNAL] else [])
  { signal_id := "bank_stress"
    title := "Banking System Stress"
    summary := bankHealth.assessment
    score := bankHealth.stress_score
    tags := tags
    category := .BANKING
    sources_used := [.FDIC]
    contributing_series := []
    data_as_of := today }

/-- The per-category weight table of `compute_recession_probability`
(`weights.get(category, 0.05)`). -/
def weightFor (c : Category) : ℚ :=
  match c with
  | .INTEREST_RATES => 35/100
  | .EMPLOYMENT => 25/100
  | .INFLATION => 15/100
  | .BANKING => 15/100
  | .LEADING_INDICATORS => 10/100
  | _ => 5/100

/-- The unemployment-trend labelling of `compute_recession_probability`
(`scoring.py` lines 282-292). -/
def unempTrendLabel (unemploymentSeries : Option EconomicSeries) : Option String :=
  match unemploymentSeries with
  | none => none
  | some u =>
    if u.observations.length ≥ 6 then
      match (u.pctChange 3).getLast? with
      | none => none
      | some ch =>
        some (if ch.2 > 2 then "rising" else if ch.2 < -2 then "falling" else "stable")
    else none

/-- Assessment sentence of `compute_recession_probability` (interpolated
percentage elided). -/
def recessionAssessment (probability : ℚ) : String :=
  if probability > 7/10 then
    "High recession probability. Multiple economic indicators are flashing warning signs."
  else if probability > 2/5 then
    "Elevated recession risk. Some indicators are concerning but the signal is mixed."
  else if probability > 1/5 then
    "Mild recession risk. Most indicators are stable with isolated areas of concern."
  else
    "Low recession probability. Economic indicators are broadly healthy."

/-- `compute_recession_probability` from `core/scoring.py`.  The
`recession_signals` filter computed on entry in the source is dead code (never
read) and is therefore not modelled. -/
def computeRecessionProbability (signals : List ScoredSignal)
    (yieldCurveSpread : Option ℚ := none)
    (unemploymentSeries : Option EconomicSeries := none) : RecessionProbability :=
  if signals.isEmpty then
    { probability := 0
      assessment := "Insufficient data to compute recession probability."
      contributing_signals := []
      yield_curve_spread := none
      unemployment_trend := none }
  else
    let acc := signals.foldl
      (fun (a : ℚ × ℚ) signal =>
        let w := weightFor signal.category
        (a.1 + signal.score * w, a.2 + w)) (0, 0)
    let probability := if acc.2 > 0 then acc.1 / acc.2 else 0
    let probability := max 0 (min 1 probability)
    { probability := round3 probability
      assessment := recessionAssessment probability
      contributing_signals := signals
      yield_curve_spread := yieldCurveSpread
      unemployment_trend := unempTrendLabel unemploymentSeries }

/-- A `signal_snapshots` row from `sqlmodels.py` (autoincrement id elided). -/
structure SignalSnapshotRow where
  signal_name : String
  score : ℚ
  title : String
  summary : String
  tags : String
  category : String
  data_as_of : ℤ
  computed_at : ℤ
deriving DecidableEq, Inhabited

/-- A `recession_snapshots` row from `sqlmodels.py` (autoincrement id elided). -/
structure RecessionSnapshotRow where
  probability : ℚ
  assessment : String
  yield_curve_spread : Option ℚ
  unemployment_trend : Option String
  signal_count : ℕ
  data_as_of : ℤ
  computed_at : ℤ
deriving DecidableEq, Inhabited

/-- An `ingestion_meta` row from `sqlmodels.py` (the ISO-timestamp string
value is modelled as the `ℤ` wall-clock instant it renders). -/
structure MetaRow where
  key : String
  value : ℤ
  updated_at : ℤ
deriving DecidableEq, Inhabited

/-- The SQLite store: the three tables as append-only row lists. -/
structure DB where
  signal_snapshots : List SignalSnapshotRow
  recession_snapshots : List RecessionSnapshotRow
  meta : List MetaRow
deriving DecidableEq, Inhabited

/-- The empty database. -/
def DB.empty : DB := ⟨[], [], []⟩

/-- `sig.title.lower().replace(" ", "_")` from `_persist_snapshot`. -/
def signalNameOf (title : String) : String :=
  (title.toLower).replace " " "_"

/-- `",".join(t.value for t in sig.tags)` from `_persist_snapshot`. -/
def joinTags (tags : List SignalTag) : String :=
  String.intercalate "," (tags.map SignalTag.value)

/-- `_persist_snapshot` from `ingestors.py`: append one `SignalSnapshot` row
per signal plus one `RecessionSnapshot` row, all with `data_as_of = as_of`;
`now` stands for `datetime.utcnow()`.  Returns (row count, new store). -/
def persistSnapshot (signals : List ScoredSignal) (recession : RecessionProbability)
    (asOf : ℤ) (now : ℤ) (db : DB) : ℕ × DB :=
  let rows := signals.map (fun sig =>
    { signal_name := signalNameOf sig.title
      score := sig.score
      title := sig.title
      summary := sig.summary
      tags := joinTags sig.tags
      category := sig.category.value
      data_as_of := asOf
      computed_at := now : SignalSnapshotRow })
  let recRow : RecessionSnapshotRow :=
    { probability := recession.probability
      assessment := recession.assessment
      yield_curve_spread := recession.yield_curve_spread
      unemployment_trend := recession.unemployment_trend
      signal_count := signals.length
      data_as_of := asOf
      computed_at := now }
  (signals.length + 1,
   { db with signal_snapshots := db.signal_snapshots ++ rows
             recession_snapshots := db.recession_snapshots ++ [recRow] })

/-- `needs_backfill` from `ingestors.py`: true iff no `backfill_complete`
meta row exists. -/
def needsBackfill (db : DB) : Bool :=
  (db.meta.find? (fun r => r.key == "backfill_complete")).isNone

/-- The `last_refresh` upsert at the end of `run_refresh`: update the row if
present, else insert it. -/
def setLastRefresh (db : DB) (now : ℤ) : DB :=
  if db.meta.any (fun r => r.key == "last_refresh") then
    { db with meta := db.meta.map (fun r =>
        if r.key == "last_refresh" then { r with value := now, updated_at := now } else r) }
  else
    { db with meta := db.meta ++ [{ key := "last_refresh", value := now, updated_at := now }] }

/-- `_trim_series` from `ingestors.py`: keep observations strictly before
`cutoff`, same metadata. -/
def trimSeries (s : EconomicSeries) (cutoff : ℤ) : EconomicSeries :=
  { s with observations := s.observations.filter (fun o => decide (o.date < cutoff)) }

/-- The signal list assembled by both `run_refresh` and the backfill loop
body: yield-curve signal, jobs/inflation signal, then the bank-stress signal
when the FDIC fetch succeeded (`bankHealth = some _`; `none` models the
caught fetch failure). -/
def gatherSignals (spread unemployment cpi : Option EconomicSeries)
    (bankHealth : Option BankHealthSummary) (today : ℤ) : List ScoredSignal :=
  (match scoreYieldCurve spread with
   | some y => [y]
   | none => []) ++
  (match scoreJobsInflationDivergence unemployment cpi with
   | some j => [j]
   | none => []) ++
  (match bankHealth with
   | some bh => [scoreBankStress bh today]
   | none => [])

/-- `run_refresh` from `ingestors.py`, from the point where the three FRED
series have been fetched (they are parameters): score, aggregate, persist
with `data_as_of = today` (`date.today()`), upsert `last_refresh`.  Returns
(snapshot count, new store). -/
def runRefresh (spread unemployment cpi : EconomicSeries)
    (bankHealth : Option BankHealthSummary) (today now : ℤ) (db : DB) : ℕ × DB :=
  let signals := gatherSignals (some spread) (some unemployment) (some cpi) bankHealth today
  if signals.isEmpty then (0, db)
  else
    let spreadVal := (spread.latestObs.map (·.value))
    let recession := computeRecessionProbability signals spreadVal (some unemployment)
    let cdb := persistSnapshot signals recession today now db
    (cdb.1, setLastRefresh cdb.2 now)

/-- `BACKFILL_MONTHS` from `ingestors.py`. -/
def BACKFILL_MONTHS : ℕ := 12

/-- The body of the `for months_ago in range(BACKFILL_MONTHS, 0, -1)` loop of
`run_backfill` (`ingestors.py` lines 64-95): trim the three series to the
as-of cutoff, score, and persist when any signal was produced.  `monthsBack m`
stands for `_months_back(today, m)` (calendar arithmetic on year/month
fields, which the day-count date encoding cannot express, so it is an
uninterpreted parameter); `bankResults m` is the outcome of the
per-iteration FDIC fetch (`none` models the caught fetch failure). -/
def backfillStep (monthsBack : ℕ → ℤ) (spreadFull unempFull cpiFull : EconomicSeries)
    (bankResults : ℕ → Option BankHealthSummary) (today now : ℤ)
    (acc : ℕ × DB) (monthsAgo : ℕ) : ℕ × DB :=
  let asOf := monthsBack monthsAgo
  let cutoff := asOf + 1
  let spreadAsof := trimSeries spreadFull cutoff
  let unempAsof := trimSeries unempFull cutoff
  let cpiAsof := trimSeries cpiFull cutoff
  let signals := gatherSignals (some spreadAsof) (some unempAsof) (some cpiAsof)
    (bankResults monthsAgo) today
  if signals.isEmpty then acc
  else
    let spreadVal := (spreadAsof.latestObs.map (·.value))
    let recession := computeRecessionProbability signals spreadVal (some unempAsof)
    let cdb := persistSnapshot signals recession asOf now acc.2
    (acc.1 + cdb.1, cdb.2)

/-- `run_backfill` from `ingestors.py`, from the point where the three 3-year
FRED series have been fetched: run `backfillStep` for each of the 12 trailing
months (oldest first, `months = [12, 11, ..., 1]`), then unconditionally
insert the `backfill_complete` meta row. -/
def runBackfill (monthsBack : ℕ → ℤ) (spreadFull unempFull cpiFull : EconomicSeries)
    (bankResults : ℕ → Option BankHealthSummary) (today now : ℤ) (db : DB) : ℕ × DB :=
  let months := (List.range BACKFILL_MONTHS).map (fun i => BACKFILL_MONTHS - i)
  let acc := months.foldl
    (backfillStep monthsBack spreadFull unempFull cpiFull bankResults today now) (0, db)
  (acc.1, { acc.2 with meta := acc.2.meta ++ [{ key := "backfill_complete", value := now, updated_at := now }] })

/-- A change record produced by `detect_changes` (`ingestors.py` lines 312-353). -/
structure ChangeRecord where
  signal_name : String
  title : String
  current_score : ℚ
  previous_score : Option ℚ
  change : Option ℚ
  change_type : String
  summary : String
  data_as_of : ℤ
deriving DecidableEq, Inhabited

/-- The classification chain of `detect_changes` (lines 332-339). -/
def changeTypeOf (delta : ℚ) : String :=
  if delta > 1/5 then "significant_increase"
  else if delta > 0 then "increase"
  else if delta < -1/5 then "significant_decrease"
  else "decrease"

/-- The sort key of `detect_changes` (line 352): `abs(change or 0)`. -/
def changeKey (c : ChangeRecord) : ℚ := |c.change.getD 0|

/-- The single change record (or suppression) for one latest row, looking up
the prior row by signal name (lines 313-350). -/
def mkChange (priorRows : List SignalSnapshotRow) (latest : SignalSnapshotRow) :
    Option ChangeRecord :=
  match priorRows.find? (fun p => p.signal_name == latest.signal_name) with
  | none =>
    some { signal_name := latest.signal_name
           title := latest.title
           current_score := latest.score
           previous_score := none
           change := none
           change_type := "new"
           summary := latest.summary
           data_as_of := latest.data_as_of }
  | some prior =>
    let delta := latest.score - prior.score
    if |delta| < 1/20 then none
    else
      some { signal_name := latest.signal_name
             title := latest.title
             current_score := latest.score
             previous_score := some prior.score
             change := some (round3 delta)
             change_type := changeTypeOf delta
             summary := latest.summary
             data_as_of := latest.data_as_of }

/-- `detect_changes` from `ingestors.py`, from the point where the two SQL
queries have produced the per-name latest rows and per-name prior rows (one
row per signal name each, the dict values in iteration order): classify each
pair, drop rows with `|delta| < 0.05`, and stable-sort descending by
`abs(change or 0)` (Python `list.sort(key=..., reverse=True)` is a stable
descending sort, which `mergeSort` with the reversed comparison reproduces). -/
def detectChangesCore (latestRows priorRows : List SignalSnapshotRow) : List ChangeRecord :=
  let changes := latestRows.filterMap (mkChange priorRows)
  changes.mergeSort (fun a b => decide (changeKey b ≤ changeKey a))

/-- An alert dict produced by `detect_alerts` (`ingestors.py` lines 379-469);
the `message` f-string's interpolations are elided. -/
structure Alert where
  type : String
  severity : String
  signal_name : String
  title : String
  message : String
  current_score : ℚ
  previous_score : ℚ
  data_as_of : ℤ
deriving DecidableEq, Inhabited

/-- `severity_order.get(severity, 3)` from `detect_alerts` (lines 467-468). -/
def severityRank (s : String) : ℕ :=
  if s == "high" then 0 else if s == "medium" then 1 else if s == "low" then 2 else 3

/-- One step of the `by_name.setdefault(name, []).append(s)` grouping loop
(lines 381-383): append to the existing group, else add a new group at the
end (Python dicts preserve key insertion order). -/
def addToGroup (acc : List (String × List SignalSnapshotRow)) (s : SignalSnapshotRow) :
    List (String × List SignalSnapshotRow) :=
  if acc.any (fun p => p.1 == s.signal_name) then
    acc.map (fun p => if p.1 == s.signal_name then (p.1, p.2 ++ [s]) else p)
  else
    acc ++ [(s.signal_name, [s])]

/-- The full `by_name` grouping of the snapshot rows (query-ordered by
signal name then ascending `data_as_of`). -/
def groupByName (rows : List SignalSnapshotRow) : List (String × List SignalSnapshotRow) :=
  rows.foldl addToGroup []

/-- Adjacent-pairs check `all(r[i] <= r[i+1])` used for `was_rising`. -/
def chainNondecreasing : List ℚ → Bool
  | [] => true
  | [_] => true
  | a :: b :: rest => decide (a ≤ b) && chainNondecreasing (b :: rest)

/-- Adjacent-pairs check `all(r[i] >= r[i+1])` used for `was_falling`. -/
def chainNonincreasing : List ℚ → Bool
  | [] => true
  | [_] => true
  | a :: b :: rest => decide (b ≤ a) && chainNonincreasing (b :: rest)

/-- The per-name loop body of `detect_alerts` (lines 385-438): at least two
snapshots required; a threshold-crossing alert from the last two snapshots,
then a trend-reversal alert when there are at least four snapshots. -/
def signalAlerts (name : String) (snapshots : List SignalSnapshotRow) : List Alert :=
  if snapshots.length < 2 then []
  else
    let latest := snapshots.getLastD default
    let prev := snapshots.dropLast.getLastD default
    let thresholdAlerts : List Alert :=
      if latest.score ≥ 3/5 ∧ prev.score < 3/5 then
        [{ type := "threshold_crossed"
           severity := "high"
           signal_name := name
           title := latest.title ++ " - Elevated Risk"
           message := latest.title ++ " crossed above 60%"
           current_score := latest.score
           previous_score := prev.score
           data_as_of := latest.data_as_of }]
      else if latest.score < 3/10 ∧ prev.score ≥ 3/10 then
        [{ type := "threshold_crossed"
           severity := "low"
           signal_name := name
           title := latest.title ++ " - Risk Diminishing"
           message := latest.title ++ " dropped below 30%"
           current_score := latest.score
           previous_score := prev.score
           data_as_of := latest.data_as_of }]
      else []
    let reversalAlerts : List Alert :=
      if snapshots.length ≥ 4 then
        let recent3 := ((snapshots.drop (snapshots.length - 4)).take 3).map (·.score)
        let wasRising := chainNondecreasing recent3
        let wasFalling := chainNonincreasing recent3
        if wasRising && decide (latest.score < prev.score) then
          [{ type := "trend_reversal"
             severity := "medium"
             signal_name := name
             title := latest.title ++ " - Trend Reversal"
             message := latest.title ++ " has peaked and is now declining"
             current_score := latest.score
             previous_score := prev.score
             data_as_of := latest.data_as_of }]
        else if wasFalling && decide (prev.score < latest.score) then
          [{ type := "trend_reversal"
             severity := "medium"
             signal_name := name
             title := latest.title ++ " - Trend Reversal"
             message := latest.title ++ " has bottomed and is now rising"
             current_score := latest.score
             previous_score := prev.score
             data_as_of := latest.data_as_of }]
        else []
      else []
    thresholdAlerts ++ reversalAlerts

/-- The global recession-threshold part of `detect_alerts` (lines 440-465):
for thresholds 0.3 and 0.5 in order, an upward crossing of the last two
recession snapshots is high/medium severity, a downward crossing is low. -/
def recessionAlerts (allRecession : List RecessionSnapshotRow) : List Alert :=
  if allRecession.length ≥ 2 then
    let rLatest := allRecession.getLastD default
    let rPrev := allRecession.dropLast.getLastD default
    ([3/10, 1/2] : List ℚ).flatMap (fun threshold =>
      if rLatest.probability ≥ threshold ∧ rPrev.probability < threshold then
        [{ type := "recession_threshold"
           severity := if threshold ≥ 1/2 then "high" else "medium"
           signal_name := "recession_probability"
           title := "Recession Probability - Crossed Threshold"
           message := "Composite recession probability rose above the threshold"
           current_score := rLatest.probability
           previous_score := rPrev.probability
           data_as_of := rLatest.data_as_of }]
      else if rLatest.probability < threshold ∧ rPrev.probability ≥ threshold then
        [{ type := "recession_threshold"
           severity := "low"
           signal_name := "recession_probability"
           title := "Recession Probability - Dropped Below Threshold"
           message := "Composite recession probability fell below the threshold"
           current_score := rLatest.probability
           previous_score := rPrev.probability
           data_as_of := rLatest.data_as_of }]
      else [])
  else []

/-- The alert list of `detect_alerts` before the final sort: per-name alerts
in group order, then the recession-threshold alerts. -/
def alertsUnsorted (allSignals : List SignalSnapshotRow)
    (allRecession : List RecessionSnapshotRow) : List Alert :=
  ((groupByName allSignals).map (fun p => signalAlerts p.1 p.2)).flatten
    ++ recessionAlerts allRecession

/-- `detect_alerts` from `ingestors.py`, from the point where the two queries
have returned all signal snapshots (ordered by name then ascending
`data_as_of`) and all recession snapshots (ascending `data_as_of`): group,
derive alerts, and stable-sort by severity rank (Python `list.sort` with an
integer key, reproduced by `mergeSort`). -/
def detectAlerts (allSignals : List SignalSnapshotRow)
    (allRecession : List RecessionSnapshotRow) : List Alert :=
  (alertsUnsorted allSignals allRecession).mergeSort
    (fun a b => decide (severityRank a.severity ≤ severityRank b.severity))

/-- Metadata shared by the concrete example series below. -/
def exMeta : SeriesMetadata :=
  { series_id := "T10Y2Y"
    title := "10-Year Treasury Minus 2-Year Treasury"
    source := .FRED
    category := .INTEREST_RATES
    frequency := .DAILY
    units := "Percent" }

/-- Build an example series over `exMeta`. -/
def mkSeries (obs : List DataPoint) : EconomicSeries :=
  { metadata := exMeta, observations := obs }

/-- A series with no observations. -/
def exEmptySeries : EconomicSeries := mkSeries []

/-- A one-point spread series whose latest (and only) observation is dated
day 100 with value 1. -/
def exSpreadStale : EconomicSeries := mkSeries [{ date := 100, value := 1 }]

/-- A spread series whose latest value is 0.3 after an inversion 50 days
earlier: the un-inversion override fires on top of the near-flat base case. -/
def exSpreadDupTags : EconomicSeries :=
  mkSeries [{ date := 0, value := -1 }, { date := 50, value := 3/10 }]

/-- A spread series whose latest value is 3 (steep base case, score 0.1)
after an inversion 100 days earlier. -/
def exSpreadUninverted : EconomicSeries :=
  mkSeries [{ date := 0, value := -1 }, { date := 100, value := 3 }]

/-- A series with five observations, all of value zero: every 3-period
percent-change base value is zero, so `pctChange` is empty. -/
def exZeroSeries : EconomicSeries :=
  mkSeries [{ date := 1, value := 0 }, { date := 2, value := 0 }, { date := 3, value := 0 },
            { date := 4, value := 0 }, { date := 5, value := 0 }]

/-- An Interest Rates signal of score 1 carrying the recession tag. -/
def exSigIR : ScoredSignal :=
  { signal_id := "yield_curve"
    title := "Yield Curve Signal"
    summary := "example"
    score := 1
    tags := [.RECESSION_SIGNAL]
    category := .INTEREST_RATES
    sources_used := [.FRED]
    contributing_series := ["T10Y2Y"]
    data_as_of := 10 }

/-- The same signal with its tags stripped. -/
def exSigIRNoTags : ScoredSignal := { exSigIR with tags := [] }

/-- A latest snapshot row of score 0.56 for the yield-curve signal. -/
def exLatestYC : SignalSnapshotRow :=
  { signal_name := "yield_curve_signal"
    score := 14/25
    title := "Yield Curve Signal"
    summary := "example"
    tags := ""
    category := "interest_rates"
    data_as_of := 20
    computed_at := 0 }

/-- The prior snapshot row of score 0.50 for the yield-curve signal. -/
def exPriorYC : SignalSnapshotRow := { exLatestYC with score := 1/2, data_as_of := 10 }

/-- Three snapshot rows for one signal with scores 0.5, 0.55, 0.62 across
three ascending as-of dates. -/
def exAlertRows : List SignalSnapshotRow :=
  [{ exLatestYC with score := 1/2, data_as_of := 1 },
   { exLatestYC with score := 11/20, data_as_of := 2 },
   { exLatestYC with score := 31/50, data_as_of := 3 }]

/-- The signal that `score_yield_curve` produces on `exSpreadDupTags`: the
near-flat base case (score 0.4, recession tag) with the un-inversion override
applied on top, so the recession tag appears twice. -/
def exDupSig : ScoredSignal :=
  { signal_id := "yield_curve"
    title := "Yield Curve Signal"
    summary := yieldBaseSummary (3/10) ++ " The curve recently un-inverted - historically this steepening after inversion often immediately precedes recession."
    score := max (yieldBase (3/10)).1 (7/10)
    tags := (yieldBase (3/10)).2 ++ [.RECESSION_SIGNAL]
    category := .INTEREST_RATES
    sources_used := [.FRED]
    contributing_series := ["T10Y2Y"]
    data_as_of := 50 }

/-- C3: `compute_recession_probability([])` returns probability exactly 0,
the fixed insufficient-data assessment text, and no contributing signals. -/
theorem C3_empty_signal_list (ycs : Option ℚ) (us : Option EconomicSeries) :
    (computeRecessionProbability [] ycs us).probability = 0
    ∧ (computeRecessionProbability [] ycs us).assessment
        = "Insufficient data to compute recession probability."
    ∧ (computeRecessionProbability [] ycs us).contributing_signals = [] :=
  ⟨rfl, rfl, rfl⟩

/-- `setLastRefresh` never touches the snapshot tables. -/
theorem setLastRefresh_signal_snapshots (db : DB) (now : ℤ) :
    (setLastRefresh db now).signal_snapshots = db.signal_snapshots := by
  unfold setLastRefresh
  split <;> rfl

/-- C1 (amended): every signal snapshot row persisted by `_persist_snapshot`
carries the `as_of` argument as its stored `data_as_of` — and `run_refresh`
passes `date.today()` for it — regardless of the `data_as_of` fields of the
`ScoredSignal`s being persisted. -/
theorem C1_persisted_as_of_is_argument
    (signals : List ScoredSignal) (recession : RecessionProbability) (asOf now : ℤ) (db : DB)
    (spread unemployment cpi : EconomicSeries) (bankHealth : Option BankHealthSummary)
    (today now2 : ℤ) (db2 : DB) :
    ((persistSnapshot signals recession asOf now db).2.signal_snapshots.map (fun r => r.data_as_of)
        = db.signal_snapshots.map (fun r => r.data_as_of) ++ signals.map (fun _ => asOf))
    ∧ ((runRefresh spread unemployment cpi bankHealth today now2 db2).2.signal_snapshots.map
          (fun r => r.data_as_of)
        = db2.signal_snapshots.map (fun r => r.data_as_of)
            ++ (gatherSignals (some spread) (some unemployment) (some cpi) bankHealth today).map
                 (fun _ => today)) := by
  constructor
  · simp only [persistSnapshot, List.map_append, List.map_map]
    rfl
  · unfold runRefresh
    dsimp only
    split
    · rename_i h
      rw [List.isEmpty_iff] at h
      simp [h]
    · rw [setLastRefresh_signal_snapshots]
      simp only [persistSnapshot, List.map_append, List.map_map]
      rfl

/-- C1 counterexample: a refresh on day 200 of a spread series whose latest
observation is day 100 stores `data_as_of = 200` while the scored signal's
own `data_as_of` is 100. -/
theorem C1_counterexample :
    ((runRefresh exSpreadStale exEmptySeries exEmptySeries none 200 500 DB.empty).2.signal_snapshots.map
        (fun r => r.data_as_of) = [200])
    ∧ ((scoreYieldCurve (some exSpreadStale)).map (fun sig => sig.data_as_of) = some 100)
    ∧ (200 : ℤ) ≠ 100 := by
  refine ⟨?_, by decide, by decide⟩
  decide

/-- One backfill iteration never touches the meta table. -/
theorem backfillStep_meta (monthsBack : ℕ → ℤ) (spreadFull unempFull cpiFull : EconomicSeries)
    (bankResults : ℕ → Option BankHealthSummary) (today now : ℤ)
    (acc : ℕ × DB) (monthsAgo : ℕ) :
    ((backfillStep monthsBack spreadFull unempFull cpiFull bankResults today now acc monthsAgo).2).meta
      = acc.2.meta := by
  unfold backfillStep
  dsimp only
  split
  · rfl
  · rfl

/-- The whole backfill loop never touches the meta table. -/
theorem backfill_loop_meta (monthsBack : ℕ → ℤ) (spreadFull unempFull cpiFull : EconomicSeries)
    (bankResults : ℕ → Option BankHealthSummary) (today now : ℤ)
    (months : List ℕ) (acc : ℕ × DB) :
    ((months.foldl (backfillStep monthsBack spreadFull unempFull cpiFull bankResults today now) acc).2).meta
      = acc.2.meta := by
  induction months generalizing acc with
  | nil => rfl
  | cons m t ih =>
    rw [List.foldl_cons, ih, backfillStep_meta]

/-- The `last_refresh` upsert preserves `needs_backfill`. -/
theorem needsBackfill_setLastRefresh (db : DB) (now : ℤ) :
    needsBackfill (setLastRefresh db now) = needsBackfill db := by
  unfold needsBackfill setLastRefresh
  split
  · dsimp only
    rw [List.find?_map]
    have hcomp : ((fun r => r.key == "backfill_complete") ∘
        (fun r => if r.key == "last_refresh"
          then { r with value := now, updated_at := now } else r))
        = (fun r : MetaRow => r.key == "backfill_complete") := by
      funext r
      by_cases h : r.key == "last_refresh" <;> simp [Function.comp, h]
    rw [hcomp]
    cases List.find? (fun r => r.key == "backfill_complete") db.meta <;> rfl
  · dsimp only
    rw [List.find?_append]
    have hone : (List.find? (fun r => r.key == "backfill_complete")
        [({ key := "last_refresh", value := now, updated_at := now } : MetaRow)]) = none := rfl
    rw [hone]
    cases List.find? (fun r => r.key == "backfill_complete") db.meta <;> rfl

/-- `run_refresh` preserves `needs_backfill`: it only inserts snapshots and
upserts `last_refresh`. -/
theorem needsBackfill_runRefresh (spread unemployment cpi : EconomicSeries)
    (bankHealth : Option BankHealthSummary) (today now : ℤ) (db : DB) :
    needsBackfill (runRefresh spread unemployment cpi bankHealth today now db).2
      = needsBackfill db := by
  unfold runRefresh
  dsimp only
  split
  · rfl
  · rw [needsBackfill_setLastRefresh]
    rfl

/-- C7: after its 12 iterations `run_backfill` appends the
`backfill_complete` meta row unconditionally — whatever the per-month scoring
and bank-fetch outcomes, including every iteration skipped — so
`needs_backfill` is false afterwards and stays false across any subsequent
`run_refresh`: the NOT_BACKFILLED → BACKFILLED transition is one-way unless
the marker row is removed externally. -/
theorem C7_backfill_marker_oneway (monthsBack : ℕ → ℤ)
    (spreadFull unempFull cpiFull : EconomicSeries)
    (bankResults : ℕ → Option BankHealthSummary) (today now : ℤ) (db : DB) :
    ((runBackfill monthsBack spreadFull unempFull cpiFull bankResults today now db).2.meta
        = db.meta ++ [{ key := "backfill_complete", value := now, updated_at := now }])
    ∧ needsBackfill (runBackfill monthsBack spreadFull unempFull cpiFull bankResults today now db).2
        = false
    ∧ ∀ (spread unemployment cpi : EconomicSeries) (bankHealth : Option BankHealthSummary)
        (today2 now2 : ℤ),
        needsBackfill (runRefresh spread unemployment cpi bankHealth today2 now2
            (runBackfill monthsBack spreadFull unempFull cpiFull bankResults today now db).2).2
          = false := by
  have hmeta : (runBackfill monthsBack spreadFull unempFull cpiFull bankResults today now db).2.meta
      = db.meta ++ [{ key := "backfill_complete", value := now, updated_at := now }] := by
    unfold runBackfill
    dsimp only
    rw [backfill_loop_meta]
  have hfalse : needsBackfill
      (runBackfill monthsBack spreadFull unempFull cpiFull bankResults today now db).2 = false := by
    unfold needsBackfill
    rw [hmeta, List.find?_append]
    have : (List.find? (fun r => r.key == "backfill_complete")
        [({ key := "backfill_complete", value := now, updated_at := now } : MetaRow)])
        = some { key := "backfill_complete", value := now, updated_at := now } := rfl
    rw [this]
    cases List.find? (fun r => r.key == "backfill_complete") db.meta <;> rfl
  refine ⟨hmeta, hfalse, ?_⟩
  intro spread unemployment cpi bankHealth today2 now2
  rw [needsBackfill_runRefresh]
  exact hfalse

/-- Every category weight is strictly positive. -/
theorem weightFor_pos (c : Category) : 0 < weightFor c := by
  cases c <;> norm_num [weightFor]

/-- The sum of weights over a non-empty signal list is strictly positive. -/
theorem weight_total_pos (l : List ScoredSignal) (h : l ≠ []) :
    0 < (l.map (fun s => weightFor s.category)).sum := by
  cases l with
  | nil => exact absurd rfl h
  | cons s t =>
    simp only [List.map_cons, List.sum_cons]
    have h1 := weightFor_pos s.category
    have h2 : 0 ≤ (t.map (fun s => weightFor s.category)).sum := by
      apply List.sum_nonneg
      intro x hx
      obtain ⟨y, _, rfl⟩ := List.mem_map.mp hx
      exact (weightFor_pos _).le
    linarith

/-- The accumulator loop of `compute_recession_probability` computes the two
sums. -/
theorem weight_foldl_eq (l : List ScoredSignal) : ∀ (a b : ℚ),
    l.foldl (fun (p : ℚ × ℚ) signal =>
        (p.1 + signal.score * weightFor signal.category, p.2 + weightFor signal.category)) (a, b)
      = (a + (l.map (fun s => s.score * weightFor s.category)).sum,
         b + (l.map (fun s => weightFor s.category)).sum) := by
  induction l with
  | nil => intro a b; simp
  | cons s t ih =>
    intro a b
    rw [List.foldl_cons, ih]
    simp only [List.map_cons, List.sum_cons, add_assoc]

/-- `round3` maps the unit interval into itself. -/
theorem round3_mem_unit {q : ℚ} (h0 : 0 ≤ q) (h1 : q ≤ 1) :
    0 ≤ round3 q ∧ round3 q ≤ 1 := by
  unfold round3
  rw [round_eq]
  constructor
  · have h2 : (0:ℤ) ≤ ⌊q * 1000 + 1/2⌋ := Int.floor_nonneg.mpr (by linarith)
    apply div_nonneg _ (by norm_num)
    exact_mod_cast h2
  · have h3 : ⌊q * 1000 + 1/2⌋ ≤ ⌊(1000:ℚ) + 1/2⌋ := Int.floor_le_floor (by linarith)
    have h4 : (⌊(1000:ℚ) + 1/2⌋ : ℤ) = 1000 := by
      rw [Int.floor_eq_iff] <;> norm_num
    rw [h4] at h3
    rw [div_le_one (by norm_num)]
    exact_mod_cast h3

/-- C2: on a non-empty list of signals with scores in [0,1], the returned
probability is the category-weighted mean of the scores (weights summed over
the signals present), clamped to [0,1] and rounded to 3 decimals, and it lies
in [0,1]. -/
theorem C2_weighted_mean (signals : List ScoredSignal) (ycs : Option ℚ)
    (us : Option EconomicSeries) (hne : signals ≠ [])
    (hsc : ∀ s ∈ signals, 0 ≤ s.score ∧ s.score ≤ 1) :
    (computeRecessionProbability signals ycs us).probability
      = round3 (max 0 (min 1
          ((signals.map (fun s => s.score * weightFor s.category)).sum
            / (signals.map (fun s => weightFor s.category)).sum)))
    ∧ 0 ≤ (computeRecessionProbability signals ycs us).probability
    ∧ (computeRecessionProbability signals ycs us).probability ≤ 1 := by
  have hwt := weight_total_pos signals hne
  have hemp : signals.isEmpty = false := List.isEmpty_eq_false.mpr hne
  have heq : (computeRecessionProbability signals ycs us).probability
      = round3 (max 0 (min 1
          ((signals.map (fun s => s.score * weightFor s.category)).sum
            / (signals.map (fun s => weightFor s.category)).sum))) := by
    unfold computeRecessionProbability
    simp only [hemp, Bool.false_eq_true, if_false]
    rw [weight_foldl_eq]
    simp only [zero_add]
    rw [if_pos hwt]
  refine ⟨heq, ?_, ?_⟩
  · rw [heq]
    exact (round3_mem_unit (le_max_left 0 _)
      (max_le zero_le_one (min_le_left 1 _))).1
  · rw [heq]
    exact (round3_mem_unit (le_max_left 0 _)
      (max_le zero_le_one (min_le_left 1 _))).2

/-- C2 witness: the theorem instantiated on a single Interest Rates signal of
score 1. -/
theorem C2_witness :
    0 ≤ (computeRecessionProbability [exSigIR] none none).probability
    ∧ (computeRecessionProbability [exSigIR] none none).probability ≤ 1
    ∧ (computeRecessionProbability [exSigIR] none none).probability
        = round3 (max 0 (min 1
            (([exSigIR].map (fun s => s.score * weightFor s.category)).sum
              / ([exSigIR].map (fun s => weightFor s.category)).sum))) := by
  have h := C2_weighted_mean [exSigIR] none none (by decide) (by decide)
  exact ⟨h.2.1, h.2.2, h.1⟩

/-- The accumulator loop depends only on the (category, score) pairs. -/
theorem foldl_pair_eq_of_map_eq : ∀ (l1 l2 : List ScoredSignal),
    l1.map (fun s => (s.category, s.score)) = l2.map (fun s => (s.category, s.score)) →
    ∀ (a : ℚ × ℚ),
      l1.foldl (fun (p : ℚ × ℚ) signal =>
          (p.1 + signal.score * weightFor signal.category, p.2 + weightFor signal.category)) a
        = l2.foldl (fun (p : ℚ × ℚ) signal =>
            (p.1 + signal.score * weightFor signal.category, p.2 + weightFor signal.category)) a := by
  intro l1
  induction l1 with
  | nil =>
    intro l2 h a
    have h2 : l2 = [] := by
      have h3 := h.symm
      simp only [List.map_nil] at h3
      rwa [List.map_eq_nil_iff] at h3
    subst h2
    rfl
  | cons s t ih =>
    intro l2 h a
    cases l2 with
    | nil => simp at h
    | cons s2 t2 =>
      simp only [List.map_cons, List.cons.injEq] at h
      obtain ⟨hpair, htail⟩ := h
      have hc : s.category = s2.category := congrArg Prod.fst hpair
      have hs : s.score = s2.score := congrArg Prod.snd hpair
      rw [List.foldl_cons, List.foldl_cons]
      have hstep : (a.1 + s.score * weightFor s.category, a.2 + weightFor s.category)
          = (a.1 + s2.score * weightFor s2.category, a.2 + weightFor s2.category) := by
        rw [hc, hs]
      rw [hstep]
      exact ih t2 htail _

/-- C10: the probability depends only on the (category, score) pairs of the
input signals — two lists agreeing pointwise on category and score but
differing arbitrarily in tags yield the same probability. -/
theorem C10_probability_ignores_tags (l1 l2 : List ScoredSignal)
    (ycs : Option ℚ) (us : Option EconomicSeries)
    (h : l1.map (fun s => (s.category, s.score)) = l2.map (fun s => (s.category, s.score))) :
    (computeRecessionProbability l1 ycs us).probability
      = (computeRecessionProbability l2 ycs us).probability := by
  unfold computeRecessionProbability
  have hemp : l1.isEmpty = l2.isEmpty := by
    cases l1 <;> cases l2 <;> simp_all
  cases he1 : l1.isEmpty with
  | true =>
    have he2 : l2.isEmpty = true := hemp ▸ he1
    simp only [he1, he2, if_true]
  | false =>
    have he2 : l2.isEmpty = false := hemp ▸ he1
    simp only [he1, he2, Bool.false_eq_true, if_false]
    rw [foldl_pair_eq_of_map_eq l1 l2 h (0, 0)]

/-- C10 witness: the same signal with and without its recession tag yields
the same probability. -/
theorem C10_witness :
    (computeRecessionProbability [exSigIR] none none).probability
      = (computeRecessionProbability [exSigIRNoTags] none none).probability :=
  C10_probability_ignores_tags [exSigIR] [exSigIRNoTags] none none (by decide)

/-- Evaluation of `score_yield_curve` when the un-inversion override fires:
the score is the max of the base-case score and 0.7 and the recession tag is
appended to the base-case tags. -/
theorem scoreYieldCurve_override (s : EconomicSeries) (latest : DataPoint)
    (hl : s.latestObs = some latest) (hpos : 0 < latest.value)
    (hW : (s.observations.filter (fun o => decide (latest.date - 180 ≤ o.date))).any
      (fun o => decide (o.value < 0)) = true) :
    scoreYieldCurve (some s) = some
      { signal_id := "yield_curve"
        title := "Yield Curve Signal"
        summary := yieldBaseSummary latest.value ++ " The curve recently un-inverted - historically this steepening after inversion often immediately precedes recession."
        score := max (yieldBase latest.value).1 (7/10)
        tags := (yieldBase latest.value).2 ++ [.RECESSION_SIGNAL]
        category := .INTEREST_RATES
        sources_used := [.FRED]
        contributing_series := ["T10Y2Y"]
        data_as_of := latest.date } := by
  have hN : decide (0 < latest.value) = true := decide_eq_true hpos
  simp only [scoreYieldCurve]
  rw [hl]
  dsimp only
  rw [hW, hN]
  simp

/-- C4: whenever the latest spread is strictly positive and some observation
in the trailing 180 days was negative, the returned score is
`max (base-case score) 0.7`, hence at least 0.7, and never below the
base-case score. -/
theorem C4_uninversion_floor (s : EconomicSeries) (latest : DataPoint)
    (hl : s.latestObs = some latest) (hpos : 0 < latest.value)
    (hneg : ∃ o ∈ s.observations, o.value < 0 ∧ latest.date - 180 ≤ o.date) :
    ∃ sig, scoreYieldCurve (some s) = some sig
      ∧ sig.score = max (yieldBase latest.value).1 (7/10)
      ∧ 7/10 ≤ sig.score
      ∧ (yieldBase latest.value).1 ≤ sig.score := by
  have hW : (s.observations.filter (fun o => decide (latest.date - 180 ≤ o.date))).any
      (fun o => decide (o.value < 0)) = true := by
    obtain ⟨o, ho, hv, hd⟩ := hneg
    rw [List.any_eq_true]
    exact ⟨o, List.mem_filter.mpr ⟨ho, by simpa using hd⟩, by simpa using hv⟩
  exact ⟨_, scoreYieldCurve_override s latest hl hpos hW, rfl,
    le_max_right _ _, le_max_left _ _⟩

/-- C4 witness: the theorem instantiated on the concrete series with an
inversion at day 0 and a steep positive spread at day 100. -/
theorem C4_witness :
    ∃ sig, scoreYieldCurve (some exSpreadUninverted) = some sig
      ∧ sig.score = max (yieldBase (3 : ℚ)).1 (7/10)
      ∧ 7/10 ≤ sig.score
      ∧ (yieldBase (3 : ℚ)).1 ≤ sig.score :=
  C4_uninversion_floor exSpreadUninverted { date := 100, value := 3 } rfl
    (by norm_num)
    ⟨{ date := 0, value := -1 }, List.mem_cons_self _ _, by norm_num, by norm_num⟩

/-- The base-case tag list of `score_yield_curve` never repeats a tag. -/
theorem nodup_yieldBase_tags (v : ℚ) : (yieldBase v).2.Nodup := by
  unfold yieldBase
  split_ifs
  all_goals dsimp only
  all_goals decide

/-- C5 (amended): the un-inversion override appends `RECESSION_SIGNAL`
unconditionally, so the tag list of the returned signal is duplicate-free
unless the current spread lies strictly between 0 and 0.5 and some
observation in the trailing 180 days was negative — in exactly that case
`RECESSION_SIGNAL` appears twice. -/
theorem C5_tags_nodup_iff (s : EconomicSeries) (latest : DataPoint)
    (hl : s.latestObs = some latest) (sig : ScoredSignal)
    (hsig : scoreYieldCurve (some s) = some sig) :
    sig.tags.Nodup ↔
      ¬(0 < latest.value ∧ latest.value < 1/2 ∧
        (s.observations.filter (fun o => decide (latest.date - 180 ≤ o.date))).any
          (fun o => decide (o.value < 0)) = true) := by
  simp only [scoreYieldCurve] at hsig
  rw [hl] at hsig
  dsimp only at hsig
  rw [Option.some.injEq] at hsig
  subst hsig
  dsimp only
  by_cases hW : (s.observations.filter (fun o => decide (latest.date - 180 ≤ o.date))).any
      (fun o => decide (o.value < 0)) = true
  · by_cases hv : 0 < latest.value
    · rw [hW, decide_eq_true hv]
      by_cases h12 : latest.value < 1/2
      · have hb : (yieldBase latest.value).2 = [.RECESSION_SIGNAL] := by
          unfold yieldBase
          rw [if_neg (not_lt.mpr hv.le), if_pos h12]
        simp only [Bool.and_self, if_true, hb]
        simp [hv, h12]
        linarith
      · have hnodup : ((yieldBase latest.value).2 ++ [SignalTag.RECESSION_SIGNAL]).Nodup := by
          unfold yieldBase
          rw [if_neg (not_lt.mpr hv.le), if_neg h12]
          by_cases h2 : latest.value > 2
          · rw [if_pos h2]
            decide
          · rw [if_neg h2]
            decide
        simp [hnodup, h12]
        intro _
        linarith [not_lt.mp h12]
    · have hcond : ((s.observations.filter (fun o => decide (latest.date - 180 ≤ o.date))).any
          (fun o => decide (o.value < 0)) && decide (0 < latest.value)) = false := by
        rw [decide_eq_false hv, Bool.and_false]
      rw [hcond]
      simp [hv, nodup_yieldBase_tags]
  · have hWf : (s.observations.filter (fun o => decide (latest.date - 180 ≤ o.date))).any
        (fun o => decide (o.value < 0)) = false := by
      revert hW
      cases (s.observations.filter (fun o => decide (latest.date - 180 ≤ o.date))).any
        (fun o => decide (o.value < 0))
      · intro _
        rfl
      · intro hc
        exact absurd rfl hc
    rw [hWf, Bool.false_and]
    simp [hWf, nodup_yieldBase_tags]

/-- An inverted observation sits inside the 180-day window of
`exSpreadDupTags`. -/
theorem exDup_wasInverted :
    (exSpreadDupTags.observations.filter (fun o => decide ((50 : ℤ) - 180 ≤ o.date))).any
      (fun o => decide (o.value < 0)) = true := by
  rw [List.any_eq_true]
  refine ⟨{ date := 0, value := -1 }, List.mem_filter.mpr ⟨List.mem_cons_self _ _, by decide⟩, ?_⟩
  exact decide_eq_true (by norm_num)

/-- `score_yield_curve` on `exSpreadDupTags` yields `exDupSig`. -/
theorem scoreYieldCurve_exDup :
    scoreYieldCurve (some exSpreadDupTags) = some exDupSig :=
  scoreYieldCurve_override exSpreadDupTags { date := 50, value := 3/10 } rfl
    (by norm_num) exDup_wasInverted

/-- C5 counterexample: on a spread of 0.3 that was inverted 50 days earlier,
the returned tag list is `[RECESSION_SIGNAL, RECESSION_SIGNAL]` — the
recession tag appears twice, so the tags do not form a set. -/
theorem C5_counterexample :
    (scoreYieldCurve (some exSpreadDupTags)).map (fun sig => sig.tags)
      = some [SignalTag.RECESSION_SIGNAL, SignalTag.RECESSION_SIGNAL]
    ∧ ¬ ([SignalTag.RECESSION_SIGNAL, SignalTag.RECESSION_SIGNAL] : List SignalTag).Nodup := by
  have hb : (yieldBase ((3:ℚ)/10)).2 = [.RECESSION_SIGNAL] := by
    unfold yieldBase
    rw [if_neg (by norm_num), if_pos (by norm_num)]
  constructor
  · rw [scoreYieldCurve_exDup]
    simp [exDupSig, hb]
  · decide

/-- C5 witness: the amended theorem applied to `exSpreadDupTags` shows its
tag list is not duplicate-free. -/
theorem C5_witness : ¬ exDupSig.tags.Nodup := by
  have h := C5_tags_nodup_iff exSpreadDupTags { date := 50, value := 3/10 } rfl exDupSig
    scoreYieldCurve_exDup
  intro hn
  exact (h.mp hn) ⟨by norm_num, by norm_num, exDup_wasInverted⟩

/-- C6 (amended): `score_jobs_inflation_divergence` is absent exactly when a
series is missing, empty, or yields fewer than two 3-period percent-change
points — which five raw observations do NOT guarantee, since observations
whose 3-period-lagged base value is zero are skipped by `pct_change`. -/
theorem C6_jobs_inflation_absent_iff :
    (∀ c, scoreJobsInflationDivergence none c = none)
    ∧ (∀ u, scoreJobsInflationDivergence u none = none)
    ∧ ∀ (u c : EconomicSeries),
        (scoreJobsInflationDivergence (some u) (some c) = none ↔
          (u.observations = [] ∨ c.observations = [] ∨
           (u.pctChange 3).length < 2 ∨ (c.pctChange 3).length < 2)) := by
  refine ⟨fun c => rfl, fun u => ?_, fun u c => ?_⟩
  · cases u with
    | none => rfl
    | some x => rfl
  · simp only [scoreJobsInflationDivergence]
    by_cases h1 : (u.observations.isEmpty || c.observations.isEmpty) = true
    · rw [if_pos h1]
      constructor
      · intro _
        have h1s : u.observations.isEmpty = true ∨ c.observations.isEmpty = true := by
          simpa using h1
        rcases h1s with h | h
        · exact Or.inl (List.isEmpty_iff.mp h)
        · exact Or.inr (Or.inl (List.isEmpty_iff.mp h))
      · intro _
        rfl
    · rw [if_neg h1]
      have h1n : ¬(u.observations.isEmpty = true ∨ c.observations.isEmpty = true) := by
        simpa using h1
      rw [not_or] at h1n
      obtain ⟨hu, hc⟩ := h1n
      have hu' : u.observations ≠ [] := fun he => hu (List.isEmpty_iff.mpr he)
      have hc' : c.observations ≠ [] := fun he => hc (List.isEmpty_iff.mpr he)
      by_cases h2 : (decide ((u.pctChange 3).length < 2) || decide ((c.pctChange 3).length < 2)) = true
      · rw [if_pos h2]
        constructor
        · intro _
          have h2s : decide ((u.pctChange 3).length < 2) = true
              ∨ decide ((c.pctChange 3).length < 2) = true := by
            simpa using h2
          rcases h2s with h | h
          · exact Or.inr (Or.inr (Or.inl (of_decide_eq_true h)))
          · exact Or.inr (Or.inr (Or.inr (of_decide_eq_true h)))
        · intro _
          rfl
      · rw [if_neg h2]
        have h2n : ¬(decide ((u.pctChange 3).length < 2) = true
            ∨ decide ((c.pctChange 3).length < 2) = true) := by
          simpa using h2
        rw [not_or] at h2n
        obtain ⟨hlu, hlc⟩ := h2n
        constructor
        · intro hcontra
          exact absurd hcontra (by simp)
        · intro hor
          rcases hor with h | h | h | h
          · exact absurd h hu'
          · exact absurd h hc'
          · exact absurd (decide_eq_true h) hlu
          · exact absurd (decide_eq_true h) hlc

/-- The all-zero five-point series has no percent-change points: every base
value is zero and is skipped. -/
theorem exZero_pctChange : exZeroSeries.pctChange 3 = [] := by
  have hsort : exZeroSeries.observations.mergeSort (fun a b => decide (a.date ≤ b.date))
      = exZeroSeries.observations :=
    List.mergeSort_of_sorted (by decide)
  unfold EconomicSeries.pctChange
  rw [hsort]
  rfl

/-- C6 counterexample: two series of five raw observations each (all values
zero) still yield an absent result, although the claim promises a
`ScoredSignal` whenever both series have at least 5 observations. -/
theorem C6_counterexample :
    exZeroSeries.observations.length = 5
    ∧ scoreJobsInflationDivergence (some exZeroSeries) (some exZeroSeries) = none := by
  refine ⟨rfl, ?_⟩
  simp only [scoreJobsInflationDivergence]
  rw [if_neg (by decide)]
  rw [exZero_pctChange]
  rw [if_pos (by decide)]

/-- Each change record carries the signal name of the latest row it came
from. -/
theorem mkChange_signal_name (priorRows : List SignalSnapshotRow)
    (latest : SignalSnapshotRow) (r : ChangeRecord)
    (h : mkChange priorRows latest = some r) : r.signal_name = latest.signal_name := by
  unfold mkChange at h
  cases hf : priorRows.find? (fun p => p.signal_name == latest.signal_name) with
  | none =>
    rw [hf] at h
    rw [Option.some.injEq] at h
    rw [← h]
  | some prior =>
    rw [hf] at h
    dsimp only at h
    by_cases hd : |latest.score - prior.score| < 1/20
    · rw [if_pos hd] at h
      exact absurd h (by simp)
    · rw [if_neg hd] at h
      rw [Option.some.injEq] at h
      rw [← h]

/-- C8: in `detect_changes`, a name with both a latest and a prior row is
suppressed entirely when `|delta| < 0.05`; otherwise its record carries the
scores, the rounded delta, and the claimed classification; and the output is
sorted descending by `|delta|` (absent delta counting as 0). -/
theorem C8_detect_changes (latestRows priorRows : List SignalSnapshotRow)
    (hnd : (latestRows.map (fun r => r.signal_name)).Nodup)
    (latest prior : SignalSnapshotRow) (hmem : latest ∈ latestRows)
    (hp : priorRows.find? (fun p => p.signal_name == latest.signal_name) = some prior) :
    (|latest.score - prior.score| < 1/20 →
        ∀ r ∈ detectChangesCore latestRows priorRows, r.signal_name ≠ latest.signal_name)
    ∧ (1/20 ≤ |latest.score - prior.score| →
        ∃ r ∈ detectChangesCore latestRows priorRows,
          r.signal_name = latest.signal_name
          ∧ r.current_score = latest.score
          ∧ r.previous_score = some prior.score
          ∧ r.change = some (round3 (latest.score - prior.score))
          ∧ r.change_type = changeTypeOf (latest.score - prior.score))
    ∧ (detectChangesCore latestRows priorRows).Pairwise
        (fun a b => changeKey b ≤ changeKey a)
    ∧ (∀ d : ℚ, (1/5 < d → changeTypeOf d = "significant_increase")
        ∧ (0 < d → d ≤ 1/5 → changeTypeOf d = "increase")
        ∧ (d < -1/5 → changeTypeOf d = "significant_decrease")
        ∧ (-1/5 ≤ d → d ≤ 0 → changeTypeOf d = "decrease")) := by
  have hperm : (detectChangesCore latestRows priorRows).Perm
      (latestRows.filterMap (mkChange priorRows)) :=
    List.mergeSort_perm _ _
  refine ⟨?_, ?_, ?_, ?_⟩
  · intro hd r hr hname
    have hr' : r ∈ latestRows.filterMap (mkChange priorRows) :=
      (List.Perm.mem_iff hperm).mp hr
    obtain ⟨lsrc, hsrcmem, hsrc⟩ := List.mem_filterMap.mp hr'
    have hname2 : lsrc.signal_name = latest.signal_name := by
      rw [← mkChange_signal_name priorRows lsrc r hsrc]
      exact hname
    have hsame : lsrc = latest :=
      List.inj_on_of_nodup_map hnd hsrcmem hmem hname2
    rw [hsame] at hsrc
    unfold mkChange at hsrc
    rw [hp] at hsrc
    dsimp only at hsrc
    rw [if_pos hd] at hsrc
    exact absurd hsrc (by simp)
  · intro hd
    have hmk : mkChange priorRows latest = some
        { signal_name := latest.signal_name
          title := latest.title
          current_score := latest.score
          previous_score := some prior.score
          change := some (round3 (latest.score - prior.score))
          change_type := changeTypeOf (latest.score - prior.score)
          summary := latest.summary
          data_as_of := latest.data_as_of } := by
      unfold mkChange
      rw [hp]
      dsimp only
      rw [if_neg (not_lt.mpr hd)]
    exact ⟨_, (List.Perm.mem_iff hperm).mpr (List.mem_filterMap.mpr ⟨latest, hmem, hmk⟩),
      rfl, rfl, rfl, rfl, rfl⟩
  · have hsorted := @List.sorted_mergeSort _
      (fun a b => decide (changeKey b ≤ changeKey a))
      (by
        intro a b c h1 h2
        rw [decide_eq_true_eq] at h1 h2 ⊢
        exact le_trans h2 h1)
      (by
        intro a b
        rcases le_total (changeKey b) (changeKey a) with h | h
        · simp [h]
        · simp [h])
      (latestRows.filterMap (mkChange priorRows))
    exact hsorted.imp (fun h => of_decide_eq_true h)
  · intro d
    refine ⟨?_, ?_, ?_, ?_⟩
    · intro h
      unfold changeTypeOf
      rw [if_pos h]
    · intro h1 h2
      unfold changeTypeOf
      rw [if_neg (by linarith), if_pos h1]
    · intro h
      unfold changeTypeOf
      rw [if_neg (by linarith), if_neg (by linarith), if_pos h]
    · intro h1 h2
      unfold changeTypeOf
      rw [if_neg (by linarith), if_neg (by linarith), if_neg (by linarith)]

/-- C8 witness: the theorem instantiated on prior score 0.50 and latest score
0.56 yields an emitted record classified "increase". -/
theorem C8_witness :
    ∃ r ∈ detectChangesCore [exLatestYC] [exPriorYC],
      r.signal_name = exLatestYC.signal_name ∧ r.change_type = "increase" := by
  have h := (C8_detect_changes [exLatestYC] [exPriorYC] (by simp) exLatestYC exPriorYC
    (List.mem_cons_self _ _) rfl).2.1 (by
      show (1:ℚ)/20 ≤ |exLatestYC.score - exPriorYC.score|
      calc (1:ℚ)/20 ≤ exLatestYC.score - exPriorYC.score := by norm_num [exLatestYC, exPriorYC]
        _ ≤ |exLatestYC.score - exPriorYC.score| := le_abs_self _)
  obtain ⟨r, hr, h1, _, _, _, h5⟩ := h
  refine ⟨r, hr, h1, ?_⟩
  rw [h5]
  unfold changeTypeOf
  rw [if_neg (by norm_num [exLatestYC, exPriorYC]), if_pos (by norm_num [exLatestYC, exPriorYC])]

/-- A stable merge sort on a small integer key leaves the relative order of
equal-key elements unchanged: filtering the sorted list at one key value
gives exactly the filter of the input. -/
theorem filter_mergeSort_eq_filter {α : Type} (key : α → ℕ) (l : List α) (r : ℕ) :
    ((l.mergeSort (fun a b => decide (key a ≤ key b))).filter (fun a => key a == r))
      = l.filter (fun a => key a == r) := by
  have htrans : ∀ (a b c : α), (decide (key a ≤ key b)) = true →
      (decide (key b ≤ key c)) = true → (decide (key a ≤ key c)) = true := by
    intro a b c h1 h2
    rw [decide_eq_true_eq] at h1 h2 ⊢
    omega
  have htotal : ∀ (a b : α),
      ((decide (key a ≤ key b)) || (decide (key b ≤ key a))) = true := by
    intro a b
    rcases Nat.le_total (key a) (key b) with h | h
    · simp [h]
    · simp [h]
  have hpair : (l.filter (fun a => key a == r)).Pairwise
      (fun a b => (decide (key a ≤ key b)) = true) := by
    apply List.pairwise_of_forall_mem_list
    intro a ha b hb
    have ha' := (List.mem_filter.mp ha).2
    have hb' := (List.mem_filter.mp hb).2
    simp only [beq_iff_eq] at ha' hb'
    rw [decide_eq_true_eq]
    omega
  have hsub : (l.filter (fun a => key a == r)).Sublist
      (l.mergeSort (fun a b => decide (key a ≤ key b))) :=
    List.mergeSort_stable htrans htotal hpair (List.filter_sublist l)
  have hperm : ((l.mergeSort (fun a b => decide (key a ≤ key b))).filter
      (fun a => key a == r)).Perm (l.filter (fun a => key a == r)) :=
    (List.mergeSort_perm l _).filter _
  have hidem : (l.filter (fun a => key a == r)).filter (fun a => key a == r)
      = l.filter (fun a => key a == r) :=
    List.filter_eq_self.mpr (fun a ha => (List.mem_filter.mp ha).2)
  have hsub2 : (l.filter (fun a => key a == r)).Sublist
      ((l.mergeSort (fun a b => decide (key a ≤ key b))).filter (fun a => key a == r)) := by
    have h3 := List.Sublist.filter (fun a => key a == r) hsub
    rwa [hidem] at h3
  exact (hsub2.eq_of_length hperm.length_eq.symm).symm

/-- `addToGroup` preserves the group-name list, except for appending a fresh
name. -/
theorem addToGroup_fst (acc : List (String × List SignalSnapshotRow))
    (s : SignalSnapshotRow) :
    (addToGroup acc s).map Prod.fst
      = if acc.any (fun p => p.1 == s.signal_name) then acc.map Prod.fst
        else acc.map Prod.fst ++ [s.signal_name] := by
  unfold addToGroup
  split
  · rw [List.map_map]
    apply List.map_congr_left
    intro p _
    by_cases hp : p.1 = s.signal_name
    · simp [hp]
    · simp [hp]
  · simp

/-- The group names produced by `groupByName` are pairwise distinct: Python
dict keys are unique. -/
theorem nodup_groupByName_fst (rows : List SignalSnapshotRow) :
    ((groupByName rows).map Prod.fst).Nodup := by
  suffices h : ∀ acc : List (String × List SignalSnapshotRow), (acc.map Prod.fst).Nodup →
      ((rows.foldl addToGroup acc).map Prod.fst).Nodup by
    exact h [] (by simp)
  induction rows with
  | nil => exact fun acc h => h
  | cons x t ih =>
    intro acc h
    rw [List.foldl_cons]
    apply ih
    rw [addToGroup_fst]
    split
    · exact h
    · rename_i hany
      have hnot : x.signal_name ∉ acc.map Prod.fst := by
        intro hmemx
        obtain ⟨p, hpmem, hpeq⟩ := List.mem_map.mp hmemx
        apply hany
        rw [List.any_eq_true]
        exact ⟨p, hpmem, beq_iff_eq.mpr hpeq⟩
      exact List.Nodup.append h (List.nodup_singleton _)
        ((List.disjoint_singleton).mpr hnot)

/-- Every per-name alert carries that signal name, and its type is either a
threshold crossing or a trend reversal. -/
theorem mem_signalAlerts_info (name : String) (snapshots : List SignalSnapshotRow)
    (a : Alert) (ha : a ∈ signalAlerts name snapshots) :
    a.signal_name = name
    ∧ (a.type = "threshold_crossed" ∨ a.type = "trend_reversal") := by
  unfold signalAlerts at ha
  split at ha
  · simp at ha
  · dsimp only at ha
    rcases List.mem_append.mp ha with h | h
    · split at h
      · rw [List.mem_singleton] at h
        subst h
        exact ⟨rfl, Or.inl rfl⟩
      · split at h
        · rw [List.mem_singleton] at h
          subst h
          exact ⟨rfl, Or.inl rfl⟩
        · simp at h
    · split at h
      · split at h
        · rw [List.mem_singleton] at h
          subst h
          exact ⟨rfl, Or.inr rfl⟩
        · split at h
          · rw [List.mem_singleton] at h
            subst h
            exact ⟨rfl, Or.inr rfl⟩
          · simp at h
      · simp at h

/-- Every recession-threshold alert has type `recession_threshold`. -/
theorem mem_recessionAlerts_type (allRecession : List RecessionSnapshotRow)
    (a : Alert) (ha : a ∈ recessionAlerts allRecession) :
    a.type = "recession_threshold" := by
  unfold recessionAlerts at ha
  split at ha
  · dsimp only at ha
    rw [List.mem_flatMap] at ha
    obtain ⟨t, _, ha2⟩ := ha
    split at ha2
    · rw [List.mem_singleton] at ha2
      subst ha2
      rfl
    · split at ha2
      · rw [List.mem_singleton] at ha2
        subst ha2
        rfl
      · simp at ha2
  · simp at ha

/-- A high-severity threshold alert is emitted for a name exactly when the
latest score reaches 0.6 and the immediately preceding score was below it. -/
theorem high_alert_iff (name : String) (snapshots : List SignalSnapshotRow)
    (h2 : 2 ≤ snapshots.length) :
    (∃ a ∈ signalAlerts name snapshots,
        a.type = "threshold_crossed" ∧ a.severity = "high")
      ↔ (3/5 ≤ (snapshots.getLastD default).score
          ∧ (snapshots.dropLast.getLastD default).score < 3/5) := by
  unfold signalAlerts
  rw [if_neg (by omega)]
  dsimp only
  constructor
  · rintro ⟨a, ha, htype, hsev⟩
    rcases List.mem_append.mp ha with h | h
    · split at h
      · rename_i hcond
        exact hcond
      · split at h
        · rw [List.mem_singleton] at h
          subst h
          dsimp only at hsev
          exact absurd hsev (by decide)
        · simp at h
    · split at h
      · split at h
        · rw [List.mem_singleton] at h
          subst h
          dsimp only at htype
          exact absurd htype (by decide)
        · split at h
          · rw [List.mem_singleton] at h
            subst h
            dsimp only at htype
            exact absurd htype (by decide)
          · simp at h
      · simp at h
  · intro hcond
    exact ⟨_, List.mem_append_left _ (by
      rw [if_pos hcond]
      exact List.mem_singleton_self _), rfl, rfl⟩

/-- A low-severity threshold alert is emitted for a name exactly when the
latest score drops below 0.3 from at least 0.3; the high branch cannot fire
at the same time since 0.3 < 0.6. -/
theorem low_alert_iff (name : String) (snapshots : List SignalSnapshotRow)
    (h2 : 2 ≤ snapshots.length) :
    (∃ a ∈ signalAlerts name snapshots,
        a.type = "threshold_crossed" ∧ a.severity = "low")
      ↔ ((snapshots.getLastD default).score < 3/10
          ∧ 3/10 ≤ (snapshots.dropLast.getLastD default).score) := by
  unfold signalAlerts
  rw [if_neg (by omega)]
  dsimp only
  constructor
  · rintro ⟨a, ha, htype, hsev⟩
    rcases List.mem_append.mp ha with h | h
    · split at h
      · rw [List.mem_singleton] at h
        subst h
        dsimp only at hsev
        exact absurd hsev (by decide)
      · split at h
        · rename_i hcond
          exact hcond
        · simp at h
    · split at h
      · split at h
        · rw [List.mem_singleton] at h
          subst h
          dsimp only at htype
          exact absurd htype (by decide)
        · split at h
          · rw [List.mem_singleton] at h
            subst h
            dsimp only at htype
            exact absurd htype (by decide)
          · simp at h
      · simp at h
  · intro hcond
    exact ⟨_, List.mem_append_left _ (by
      rw [if_neg (fun hhigh => by
        have ha1 := hhigh.1
        have hb1 := hcond.1
        linarith), if_pos hcond]
      exact List.mem_singleton_self _), rfl, rfl⟩

/-- A threshold-crossed alert for a group name appears in the sorted output
exactly when the per-name body emits it: recession alerts have a different
type and other groups a different name. -/
theorem threshold_alert_mem_iff (allSignals : List SignalSnapshotRow)
    (allRecession : List RecessionSnapshotRow) (name : String)
    (snaps : List SignalSnapshotRow) (sev : String)
    (hg : (name, snaps) ∈ groupByName allSignals) :
    (∃ a ∈ detectAlerts allSignals allRecession,
        a.type = "threshold_crossed" ∧ a.severity = sev ∧ a.signal_name = name)
      ↔ (∃ a ∈ signalAlerts name snaps,
          a.type = "threshold_crossed" ∧ a.severity = sev) := by
  constructor
  · rintro ⟨a, ha, htype, hsev, hn⟩
    have ha' : a ∈ alertsUnsorted allSignals allRecession :=
      (List.Perm.mem_iff (List.mergeSort_perm _ _)).mp ha
    rcases List.mem_append.mp ha' with h | h
    · obtain ⟨lst, hlst, halst⟩ := List.mem_flatten.mp h
      obtain ⟨p, hpmem, hpdef⟩ := List.mem_map.mp hlst
      rw [← hpdef] at halst
      have hinfo := mem_signalAlerts_info p.1 p.2 a halst
      have hp1 : p.1 = name := by
        rw [← hinfo.1]
        exact hn
      have hpeq : p = (name, snaps) :=
        List.inj_on_of_nodup_map (nodup_groupByName_fst allSignals) hpmem hg hp1
      rw [hpeq] at halst
      exact ⟨a, halst, htype, hsev⟩
    · have htr := mem_recessionAlerts_type allRecession a h
      rw [htr] at htype
      exact absurd htype (by decide)
  · rintro ⟨a, ha, htype, hsev⟩
    have hn := (mem_signalAlerts_info name snaps a ha).1
    refine ⟨a, ?_, htype, hsev, hn⟩
    apply (List.Perm.mem_iff (List.mergeSort_perm _ _)).mpr
    apply List.mem_append_left
    exact List.mem_flatten.mpr
      ⟨signalAlerts name snaps, List.mem_map.mpr ⟨(name, snaps), hg, rfl⟩, ha⟩

/-- C9: in `detect_alerts`, for a signal name with at least two snapshots the
high threshold alert appears exactly on an upward 0.6 crossing of the last
two scores, the low alert exactly on a downward 0.3 crossing, and the output
is sorted by severity rank (high 0, medium 1, low 2) with the insertion
order preserved within each rank. -/
theorem C9_detect_alerts (allSignals : List SignalSnapshotRow)
    (allRecession : List RecessionSnapshotRow) (name : String)
    (snaps : List SignalSnapshotRow)
    (hg : (name, snaps) ∈ groupByName allSignals) (h2 : 2 ≤ snaps.length) :
    ((∃ a ∈ detectAlerts allSignals allRecession,
        a.type = "threshold_crossed" ∧ a.severity = "high" ∧ a.signal_name = name)
      ↔ (3/5 ≤ (snaps.getLastD default).score
          ∧ (snaps.dropLast.getLastD default).score < 3/5))
    ∧ ((∃ a ∈ detectAlerts allSignals allRecession,
        a.type = "threshold_crossed" ∧ a.severity = "low" ∧ a.signal_name = name)
      ↔ ((snaps.getLastD default).score < 3/10
          ∧ 3/10 ≤ (snaps.dropLast.getLastD default).score))
    ∧ (detectAlerts allSignals allRecession).Pairwise
        (fun a b => severityRank a.severity ≤ severityRank b.severity)
    ∧ ∀ rank : ℕ,
        (detectAlerts allSignals allRecession).filter
            (fun a => severityRank a.severity == rank)
          = (alertsUnsorted allSignals allRecession).filter
              (fun a => severityRank a.severity == rank) := by
  refine ⟨(threshold_alert_mem_iff allSignals allRecession name snaps "high" hg).trans
      (high_alert_iff name snaps h2),
    (threshold_alert_mem_iff allSignals allRecession name snaps "low" hg).trans
      (low_alert_iff name snaps h2), ?_, ?_⟩
  · have hsorted := @List.sorted_mergeSort _
      (fun a b => decide (severityRank a.severity ≤ severityRank b.severity))
      (by
        intro a b c hab hbc
        rw [decide_eq_true_eq] at hab hbc ⊢
        omega)
      (by
        intro a b
        rcases Nat.le_total (severityRank a.severity) (severityRank b.severity) with h | h
        · simp [h]
        · simp [h])
      (alertsUnsorted allSignals allRecession)
    exact hsorted.imp (fun h => of_decide_eq_true h)
  · intro rank
    exact filter_mergeSort_eq_filter (fun a => severityRank a.severity)
      (alertsUnsorted allSignals allRecession) rank

/-- C9 witness: score history 0.5, 0.55, 0.62 for one signal produces a high
threshold-crossed alert (crossing 0.6 on the last step) and no low alert (no
false positive on the 0.55 point). -/
theorem C9_witness :
    (∃ a ∈ detectAlerts exAlertRows [],
      a.type = "threshold_crossed" ∧ a.severity = "high"
        ∧ a.signal_name = "yield_curve_signal")
    ∧ ¬ (∃ a ∈ detectAlerts exAlertRows [],
      a.type = "threshold_crossed" ∧ a.severity = "low"
        ∧ a.signal_name = "yield_curve_signal") := by
  have hgr : groupByName exAlertRows = [("yield_curve_signal", exAlertRows)] := rfl
  have hg : ("yield_curve_signal", exAlertRows) ∈ groupByName exAlertRows := by
    rw [hgr]
    exact List.mem_singleton_self _
  have h := C9_detect_alerts exAlertRows [] "yield_curve_signal" exAlertRows hg (by decide)
  constructor
  · apply h.1.mpr
    constructor
    · show (3:ℚ)/5 ≤ (31:ℚ)/50
      norm_num
    · show (11:ℚ)/20 < (3:ℚ)/5
      norm_num
  · intro hex
    have hc1 : (31:ℚ)/50 < (3:ℚ)/10 := (h.2.1.mp hex).1
    norm_num at hc1
